import Mathlib

/-!
Verification of the risk-control and decision-gating core of the
Apex-Shubham/agentic-hackathon trading bot, together with its dashboard
front-ends.

The repository ships the dashboard sources (a static JS dashboard and a
React/zod client) and documentation of the Python risk engine; the risk
engine itself (circuit breaker, position sizing, decision validator,
performance evaluator, portfolio tracker) is documented in README.md and
the specification but its code is not part of this tree, so those
components are modelled from the specification text.  The dashboard
behaviour is embedded directly from static/dashboard.js and the React
client sources.
-/

/- ## Circuit Breaker (spec section 4.1) -/

/-- Modelled from the spec: the risk engine source (risk_manager) is not in
the tree.  Circuit breaker state: a level in 0..4, the time the level was
entered, and an optional cooldown deadline before which no new entries are
permitted. -/
structure CircuitBreakerState where
  level : ℕ
  enteredAt : ℚ
  cooldownUntil : Option ℚ
deriving DecidableEq, Repr

/-- Modelled from the spec: drawdown threshold of each circuit breaker
level, as a fraction of peak equity (level 1 at 25 percent, level 2 at 30,
level 3 at 35, level 4 at 38). -/
def cbThreshold : ℕ → ℚ
  | 1 => 25/100
  | 2 => 30/100
  | 3 => 35/100
  | 4 => 38/100
  | _ => 0

/-- Modelled from the spec: cooldown duration in hours carried by each
level (0h at level 1, 12h at level 2, 24h at level 3; level 4 is terminal
and is handled by the terminal check, not by a finite cooldown). -/
def cbCooldownHours : ℕ → ℚ
  | 2 => 12
  | 3 => 24
  | _ => 0

/-- Modelled from the spec: the thresholds are evaluated highest-first so
the deepest applicable level wins. -/
def levelForDrawdown (d : ℚ) : ℕ :=
  if 38/100 ≤ d then 4
  else if 35/100 ≤ d then 3
  else if 30/100 ≤ d then 2
  else if 25/100 ≤ d then 1
  else 0

/-- Modelled from the spec: one circuit breaker update on a drawdown value
`d` at time `t`.  If the drawdown meets a higher level than the current
one the machine transitions immediately, records `enteredAt`, sets the
cooldown deadline, and (when entering level 2 or higher) fires the forced
liquidation side effect, returned as the boolean component. -/
def cbUpdate (s : CircuitBreakerState) (d t : ℚ) : CircuitBreakerState × Bool :=
  if s.level < levelForDrawdown d then
    ({ level := levelForDrawdown d
       enteredAt := t
       cooldownUntil :=
         if levelForDrawdown d = 4 then none
         else some (t + cbCooldownHours (levelForDrawdown d) * 3600) },
     decide (2 ≤ levelForDrawdown d))
  else (s, false)

/-- Modelled from the spec: the administrative reset operation, callable by
an operator, demotes the level back to 0 and clears the cooldown; it is
rejected (the state is returned unchanged) when the current level is 4. -/
def cbReset (s : CircuitBreakerState) : CircuitBreakerState :=
  if s.level = 4 then s
  else { level := 0, enteredAt := s.enteredAt, cooldownUntil := none }

/-- Modelled from the spec: drawdown computation on a performance update;
`peakEquity` is optional (unset modelled as `none`), and a zero or unset
peak yields 0 rather than a division fault. -/
def drawdownPercent : Option ℚ → ℚ → ℚ
  | none, _ => 0
  | some p, equity => if p = 0 then 0 else (p - equity) / p

lemma levelForDrawdown_le_four (d : ℚ) : levelForDrawdown d ≤ 4 := by
  unfold levelForDrawdown
  split_ifs <;> norm_num

lemma levelForDrawdown_ge_one (d : ℚ) :
    1 ≤ levelForDrawdown d ↔ 25/100 ≤ d := by
  unfold levelForDrawdown
  split_ifs with h1 h2 h3 h4 <;> norm_num <;> linarith

lemma levelForDrawdown_ge_two (d : ℚ) :
    2 ≤ levelForDrawdown d ↔ 30/100 ≤ d := by
  unfold levelForDrawdown
  split_ifs with h1 h2 h3 h4 <;> norm_num <;> linarith

lemma levelForDrawdown_ge_three (d : ℚ) :
    3 ≤ levelForDrawdown d ↔ 35/100 ≤ d := by
  unfold levelForDrawdown
  split_ifs with h1 h2 h3 h4 <;> norm_num <;> linarith

lemma levelForDrawdown_ge_four (d : ℚ) :
    4 ≤ levelForDrawdown d ↔ 38/100 ≤ d := by
  unfold levelForDrawdown
  split_ifs with h1 h2 h3 h4 <;> norm_num <;> linarith

/-- Claim C1: for every drawdown `d` the circuit breaker level selected is
the highest of the four threshold levels whose bound is at most `d`, and
when an update escalates (even across several thresholds at once) the
machine settles directly at the deepest breached level while the forced
liquidation side effect of reaching level 2 or higher still fires. -/
theorem cb_level_selection_and_liquidation :
    (∀ d : ℚ, levelForDrawdown d ≤ 4 ∧
      ∀ l : ℕ, 1 ≤ l → l ≤ 4 → (l ≤ levelForDrawdown d ↔ cbThreshold l ≤ d)) ∧
    (∀ (s : CircuitBreakerState) (d t : ℚ), s.level < levelForDrawdown d →
      (cbUpdate s d t).1.level = levelForDrawdown d ∧
      (2 ≤ levelForDrawdown d → (cbUpdate s d t).2 = true)) := by
  constructor
  · intro d
    refine ⟨levelForDrawdown_le_four d, ?_⟩
    intro l h1 h4
    interval_cases l
    · exact levelForDrawdown_ge_one d
    · exact levelForDrawdown_ge_two d
    · exact levelForDrawdown_ge_three d
    · exact levelForDrawdown_ge_four d
  · intro s d t hlt
    unfold cbUpdate
    rw [if_pos hlt]
    exact ⟨rfl, fun h2 => decide_eq_true h2⟩

/-- Claim C1 witness at a concrete jump from level 0 to drawdown 36
percent: the machine settles directly at level 3 and the liquidation side
effect fires. -/
theorem cb_level_selection_and_liquidation_witness :
    (cbUpdate ⟨0, 0, none⟩ (36/100) 0).1.level = 3 ∧
    (cbUpdate ⟨0, 0, none⟩ (36/100) 0).2 = true := by
  have hd : levelForDrawdown (36/100) = 3 := by unfold levelForDrawdown; norm_num
  have h := cb_level_selection_and_liquidation.2 ⟨0, 0, none⟩ (36/100) 0
    (by rw [hd]; norm_num)
  rw [hd] at h
  exact ⟨h.1, h.2 (by norm_num)⟩

/-- Claim C2: a drawdown update never decreases the circuit breaker level
(recovery alone never demotes); the only level-decreasing transition is
the explicit administrative reset, and that reset is rejected (state
unchanged) whenever the current level is 4. -/
theorem cb_no_auto_demote_and_terminal_reset :
    (∀ (s : CircuitBreakerState) (d t : ℚ), s.level ≤ (cbUpdate s d t).1.level) ∧
    (∀ s : CircuitBreakerState, s.level = 4 → cbReset s = s) ∧
    (∀ s : CircuitBreakerState, s.level ≠ 4 → (cbReset s).level = 0) := by
  refine ⟨?_, ?_, ?_⟩
  · intro s d t
    unfold cbUpdate
    split
    · rename_i h
      exact Nat.le_of_lt h
    · exact Nat.le_refl _
  · intro s h4
    unfold cbReset
    rw [if_pos h4]
  · intro s h4
    unfold cbReset
    rw [if_neg h4]

/-- Claim C2 witness: a recovery of drawdown to 0 at level 3 leaves the
level at 3, and the reset operation at level 4 is rejected while at level
3 it demotes to 0. -/
theorem cb_no_auto_demote_and_terminal_reset_witness :
    (3 : ℕ) ≤ (cbUpdate ⟨3, 0, none⟩ 0 5).1.level ∧
    cbReset ⟨4, 0, none⟩ = ⟨4, 0, none⟩ ∧
    (cbReset ⟨3, 0, none⟩).level = 0 := by
  exact ⟨cb_no_auto_demote_and_terminal_reset.1 ⟨3, 0, none⟩ 0 5,
    cb_no_auto_demote_and_terminal_reset.2.1 ⟨4, 0, none⟩ rfl,
    cb_no_auto_demote_and_terminal_reset.2.2 ⟨3, 0, none⟩ (by decide)⟩

/-- Claim C3: the drawdown computed on a performance update equals
(peakEquity - equity) / peakEquity, except that a zero or unset peak
yields 0 (no breach, no division fault). -/
theorem drawdown_formula_and_zero_peak :
    (∀ p e : ℚ, p ≠ 0 → drawdownPercent (some p) e = (p - e) / p) ∧
    (∀ e : ℚ, drawdownPercent none e = 0) ∧
    (∀ e : ℚ, drawdownPercent (some 0) e = 0) := by
  refine ⟨?_, ?_, ?_⟩
  · intro p e hp
    show (if p = 0 then 0 else (p - e) / p) = (p - e) / p
    rw [if_neg hp]
  · intro e
    rfl
  · intro e
    rfl

/-- Claim C3 witness: equity 5000 against peak 10000 gives a drawdown of
one half, and zero or unset peaks give 0. -/
theorem drawdown_formula_and_zero_peak_witness :
    drawdownPercent (some 10000) 5000 = (10000 - 5000) / 10000 ∧
    drawdownPercent none 5000 = 0 ∧
    drawdownPercent (some 0) 5000 = 0 := by
  exact ⟨drawdown_formula_and_zero_peak.1 10000 5000 (by norm_num),
    drawdown_formula_and_zero_peak.2.1 5000,
    drawdown_formula_and_zero_peak.2.2 5000⟩

/- ## Position Sizing Engine (spec section 4.2) -/

/-- Modelled from the spec: the market regime classification supplied with
each decision proposal. -/
inductive MarketRegime where
  | TRENDING
  | BREAKOUT
  | RANGING
  | VOLATILE
  | NEUTRAL
deriving DecidableEq, Repr

/-- Modelled from the spec: base fraction of equity for a position before
the multipliers are applied. -/
def baseSize : ℚ := 1/20

/-- Modelled from the spec: hard absolute ceiling on the notional fraction
(30 percent of equity). -/
def absoluteCeiling : ℚ := 30/100

/-- Modelled from the spec: maximum notional fraction allowed by each
circuit breaker level (5 percent at level 1, 3 at level 2, 2 at level 3,
nothing at level 4, the absolute ceiling at level 0). -/
def levelMaxSize : ℕ → ℚ
  | 0 => 30/100
  | 1 => 5/100
  | 2 => 3/100
  | 3 => 2/100
  | _ => 0

/-- Modelled from the spec: leverage cap carried by each circuit breaker
level (global maximum at level 0, 2x at levels 1 to 3, floor of 1 at the
terminal level). -/
def levelLeverageCap : ℕ → ℚ
  | 0 => 5
  | 1 => 2
  | 2 => 2
  | 3 => 2
  | _ => 1

/-- Modelled from the spec: global maximum leverage per trade. -/
def globalMaxLeverage : ℚ := 5

/-- Modelled from the spec: leverage used for high-confidence trades. -/
def highConfidenceLeverage : ℚ := 3

/-- Modelled from the spec: confidence threshold above which the
high-confidence leverage bump applies. -/
def leverageThreshold : ℚ := 80

/-- Modelled from the spec: a monotonically non-decreasing step function
of confidence over the valid confidence range. -/
def confidenceMultiplier (c : ℚ) : ℚ :=
  if 80 ≤ c then 3/2 else if 75 ≤ c then 6/5 else 1

/-- Modelled from the spec: sizing multiplier for each market regime;
trending markets get larger positions. -/
def regimeMultiplier : MarketRegime → ℚ
  | .TRENDING => 6/5
  | .BREAKOUT => 11/10
  | .RANGING => 4/5
  | .VOLATILE => 7/10
  | .NEUTRAL => 1

/-- Modelled from the spec: time multiplier increasing aggression as the
competition day fraction grows. -/
def timeMultiplier (f : ℚ) : ℚ := 1 + f/2

/-- Modelled from the spec: drawdown multiplier, monotonically
non-increasing in the drawdown and reaching its floor at the level-1
threshold of 25 percent. -/
def drawdownMultiplier (d : ℚ) : ℚ :=
  if 1/4 ≤ d then 1/2 else 1 - 2*d

/-- Modelled from the spec: the notional fraction computed by the Position
Sizing Engine; the product of the base size and the four multipliers,
clamped so that the smallest of the computed value, the circuit breaker
level ceiling and the hard absolute ceiling wins. -/
def positionSize (c : ℚ) (r : MarketRegime) (f d : ℚ) (lvl : ℕ) : ℚ :=
  min (baseSize * confidenceMultiplier c * regimeMultiplier r *
        timeMultiplier f * drawdownMultiplier d)
      (min (levelMaxSize lvl) absoluteCeiling)

/-- Modelled from the spec: leverage selection; the suggested leverage is
bumped to the high-confidence leverage when confidence exceeds the
threshold and the suggestion is lower, then clamped by the level cap and
the global maximum. -/
def chooseLeverage (c sug : ℚ) (lvl : ℕ) : ℚ :=
  min (if leverageThreshold < c ∧ sug < highConfidenceLeverage
       then highConfidenceLeverage else sug)
      (min (levelLeverageCap lvl) globalMaxLeverage)

lemma confidenceMultiplier_pos (c : ℚ) : 0 < confidenceMultiplier c := by
  unfold confidenceMultiplier
  split_ifs <;> norm_num

lemma regimeMultiplier_pos (r : MarketRegime) : 0 < regimeMultiplier r := by
  cases r <;> norm_num [regimeMultiplier]

lemma timeMultiplier_pos {f : ℚ} (hf : 0 ≤ f) : 0 < timeMultiplier f := by
  unfold timeMultiplier
  linarith

lemma drawdownMultiplier_pos (d : ℚ) : 0 < drawdownMultiplier d := by
  unfold drawdownMultiplier
  split_ifs with h
  · norm_num
  · linarith [lt_of_not_le h]

lemma levelMaxSize_nonneg (lvl : ℕ) : 0 ≤ levelMaxSize lvl := by
  unfold levelMaxSize
  split <;> norm_num

lemma levelLeverageCap_ge_one (lvl : ℕ) : 1 ≤ levelLeverageCap lvl := by
  unfold levelLeverageCap
  split <;> norm_num

/-- Claim C4: the Position Sizing Engine is total over its valid input
domain: the notional fraction always lies in
[0, min(absoluteCeiling, levelCeiling)] and the leverage in
[1, min(globalMaxLeverage, levelLeverageCap)]; no valid input produces a
negative or unbounded result (and none can produce NaN, the computation
being exact rational arithmetic). -/
theorem position_sizing_total_and_bounded
    (c : ℚ) (r : MarketRegime) (f d : ℚ) (lvl : ℕ) (sug : ℚ)
    (hc0 : 0 ≤ c) (hc1 : c ≤ 100) (hf0 : 0 ≤ f) (hf1 : f ≤ 1)
    (hd0 : 0 ≤ d) (hsug : 1 ≤ sug) :
    0 ≤ positionSize c r f d lvl ∧
    positionSize c r f d lvl ≤ min absoluteCeiling (levelMaxSize lvl) ∧
    1 ≤ chooseLeverage c sug lvl ∧
    chooseLeverage c sug lvl ≤ min globalMaxLeverage (levelLeverageCap lvl) := by
  refine ⟨?_, ?_, ?_, ?_⟩
  · apply le_min
    · have h1 : 0 < baseSize := by norm_num [baseSize]
      exact le_of_lt (mul_pos (mul_pos (mul_pos (mul_pos h1
        (confidenceMultiplier_pos c)) (regimeMultiplier_pos r))
        (timeMultiplier_pos hf0)) (drawdownMultiplier_pos d))
    · exact le_min (levelMaxSize_nonneg lvl) (by norm_num [absoluteCeiling])
  · calc positionSize c r f d lvl ≤ min (levelMaxSize lvl) absoluteCeiling :=
          min_le_right _ _
      _ = min absoluteCeiling (levelMaxSize lvl) := min_comm _ _
  · apply le_min
    · split_ifs with h
      · norm_num [highConfidenceLeverage]
      · exact hsug
    · exact le_min (levelLeverageCap_ge_one lvl) (by norm_num [globalMaxLeverage])
  · calc chooseLeverage c sug lvl ≤ min (levelLeverageCap lvl) globalMaxLeverage :=
          min_le_right _ _
      _ = min globalMaxLeverage (levelLeverageCap lvl) := min_comm _ _

/-- Claim C4 witness at confidence 85, trending regime, mid-competition,
10 percent drawdown, circuit breaker level 0, suggested leverage 2. -/
theorem position_sizing_total_and_bounded_witness :
    0 ≤ positionSize 85 MarketRegime.TRENDING (1/2) (1/10) 0 ∧
    positionSize 85 MarketRegime.TRENDING (1/2) (1/10) 0 ≤
      min absoluteCeiling (levelMaxSize 0) ∧
    1 ≤ chooseLeverage 85 2 0 ∧
    chooseLeverage 85 2 0 ≤ min globalMaxLeverage (levelLeverageCap 0) := by
  exact position_sizing_total_and_bounded 85 MarketRegime.TRENDING (1/2) (1/10) 0 2
    (by norm_num) (by norm_num) (by norm_num) (by norm_num) (by norm_num) (by norm_num)

/- ## Decision Validator (spec section 4.3) -/

/-- Modelled from the spec: actions a decision proposal can carry. -/
inductive TradeAction where
  | LONG
  | SHORT
  | CLOSE
  | HOLD
deriving DecidableEq, Repr

/-- Modelled from the spec: side of an open position. -/
inductive PosSide where
  | LONG
  | SHORT
deriving DecidableEq, Repr

/-- Modelled from the spec: an open position owned by the Portfolio State
Tracker. -/
structure OpenPosition where
  symbol : String
  side : PosSide
  entryPrice : ℚ
  quantity : ℚ
  leverage : ℚ
  openedAt : ℚ
deriving DecidableEq, Repr

/-- Modelled from the spec: the portfolio snapshot consumed by the
validator and the performance evaluator. -/
structure PortfolioSnapshot where
  equity : ℚ
  peakEquity : ℚ
  availableMargin : ℚ
  openPositions : List OpenPosition
  initialCapital : ℚ
deriving DecidableEq, Repr

/-- Modelled from the spec: a decision proposal from the external
reasoning component (the free-text reason field is opaque and omitted). -/
structure DecisionProposal where
  asset : String
  action : TradeAction
  confidence : ℚ
  suggestedLeverage : ℚ
  marketRegime : MarketRegime
deriving DecidableEq, Repr

/-- Modelled from the spec: rejection reason codes of the validator. -/
inductive RejectReason where
  | CIRCUIT_BREAKER_TERMINAL
  | IN_COOLDOWN
  | LOW_CONFIDENCE
  | MAX_POSITIONS_REACHED
  | SYMBOL_LIMIT_REACHED
  | PORTFOLIO_RISK_EXCEEDED
  | NO_POSITION_TO_CLOSE
deriving DecidableEq, Repr

/-- Modelled from the spec: the validation result, a closed tagged
variant, either an accepted order specification or a rejection reason. -/
inductive ValidationResult where
  | Accepted (notional leverage stopLossPrice : ℚ)
  | Rejected (reasonCode : RejectReason)
deriving DecidableEq, Repr

/-- Modelled from the spec: default minimum confidence floor. -/
def minConfidence : ℚ := 70

/-- Modelled from the spec: lower confidence floor applying in a volatile
market regime. -/
def minConfidenceVolatile : ℚ := 60

/-- Modelled from the spec: maximum number of open positions. -/
def maxOpenPositions : ℕ := 5

/-- Modelled from the spec: maximum open positions per symbol. -/
def maxPositionsPerSymbol : ℕ := 2

/-- Modelled from the spec: maximum aggregate exposure as a fraction of
equity. -/
def maxPortfolioRisk : ℚ := 15/100

/-- Modelled from the spec: configured stop-loss percentage distance from
the entry price. -/
def stopLossPct : ℚ := 2/100

/-- Modelled from the spec: minimum confidence floor imposed by the
circuit breaker once its cooldown lapses (at least 80 at levels 2 and 3,
unrestricted elsewhere). -/
def cbConfidenceFloor : ℕ → ℚ
  | 2 => 80
  | 3 => 80
  | _ => 0

/-- Modelled from the spec: the effective minimum confidence is the
regime-dependent floor, further raised to the circuit breaker floor when
that is higher. -/
def effectiveMinConfidence (r : MarketRegime) (lvl : ℕ) : ℚ :=
  max (if r = MarketRegime.VOLATILE then minConfidenceVolatile else minConfidence)
      (cbConfidenceFloor lvl)

/-- Modelled from the spec: whether the cooldown deadline is set and still
in the future at clock time `now`. -/
def cooldownActive (cb : CircuitBreakerState) (now : ℚ) : Bool :=
  match cb.cooldownUntil with
  | some u => decide (now < u)
  | none => false

/-- Modelled from the spec: notional of one open position. -/
def posNotional (p : OpenPosition) : ℚ := p.entryPrice * p.quantity

/-- Modelled from the spec: total existing notional exposure. -/
def totalExposure (ps : List OpenPosition) : ℚ := (ps.map posNotional).sum

/-- Modelled from the spec: number of open positions on one symbol. -/
def symbolCount (ps : List OpenPosition) (sym : String) : ℕ :=
  (ps.filter (fun q => q.symbol == sym)).length

/-- Modelled from the spec: the mandatory stop-loss price at a configured
percentage distance from the entry price. -/
def stopLossPriceFor : TradeAction → ℚ → ℚ
  | TradeAction.LONG, entry => entry * (1 - stopLossPct)
  | TradeAction.SHORT, entry => entry * (1 + stopLossPct)
  | _, _ => 0

/-- Modelled from the spec: the notional the sizing engine proposes for
this proposal against this snapshot and circuit breaker level. -/
def proposedNotional (p : DecisionProposal) (snap : PortfolioSnapshot)
    (cb : CircuitBreakerState) (dayFraction : ℚ) : ℚ :=
  positionSize p.confidence p.marketRegime dayFraction
    (drawdownPercent (some snap.peakEquity) snap.equity) cb.level * snap.equity

/-- Modelled from the spec: the ordered rule pipeline applied to LONG and
SHORT proposals; the first failing rule determines the rejection reason,
and when every rule passes the sized order is accepted.  The aggregate
exposure check compares notionals against `maxPortfolioRisk` times equity
(the fraction-of-equity comparison cleared of the division). -/
def entryPipeline (p : DecisionProposal) (snap : PortfolioSnapshot)
    (cb : CircuitBreakerState) (now dayFraction entryPrice : ℚ) : ValidationResult :=
  if cb.level = 4 then ValidationResult.Rejected RejectReason.CIRCUIT_BREAKER_TERMINAL
  else if cooldownActive cb now then ValidationResult.Rejected RejectReason.IN_COOLDOWN
  else if p.confidence < effectiveMinConfidence p.marketRegime cb.level then
    ValidationResult.Rejected RejectReason.LOW_CONFIDENCE
  else if maxOpenPositions ≤ snap.openPositions.length then
    ValidationResult.Rejected RejectReason.MAX_POSITIONS_REACHED
  else if maxPositionsPerSymbol ≤ symbolCount snap.openPositions p.asset then
    ValidationResult.Rejected RejectReason.SYMBOL_LIMIT_REACHED
  else if maxPortfolioRisk * snap.equity <
      totalExposure snap.openPositions + proposedNotional p snap cb dayFraction then
    ValidationResult.Rejected RejectReason.PORTFOLIO_RISK_EXCEEDED
  else
    ValidationResult.Accepted (proposedNotional p snap cb dayFraction)
      (chooseLeverage p.confidence p.suggestedLeverage cb.level)
      (stopLossPriceFor p.action entryPrice)

/-- Modelled from the spec: the Decision Validator.  HOLD and CLOSE
actions are routed directly (CLOSE requires an existing position on the
symbol); LONG and SHORT actions go through the ordered rule pipeline. -/
def validate (p : DecisionProposal) (snap : PortfolioSnapshot)
    (cb : CircuitBreakerState) (now dayFraction entryPrice : ℚ) : ValidationResult :=
  match p.action with
  | TradeAction.HOLD => ValidationResult.Accepted 0 1 0
  | TradeAction.CLOSE =>
      if 0 < symbolCount snap.openPositions p.asset then ValidationResult.Accepted 0 1 0
      else ValidationResult.Rejected RejectReason.NO_POSITION_TO_CLOSE
  | TradeAction.LONG => entryPipeline p snap cb now dayFraction entryPrice
  | TradeAction.SHORT => entryPipeline p snap cb now dayFraction entryPrice

/-- Modelled from the spec: the fixed ordered list of (failure condition,
reason code) pairs of the pipeline. -/
def ruleChecks (p : DecisionProposal) (snap : PortfolioSnapshot)
    (cb : CircuitBreakerState) (now dayFraction : ℚ) : List (Bool × RejectReason) :=
  [ (decide (cb.level = 4), RejectReason.CIRCUIT_BREAKER_TERMINAL),
    (cooldownActive cb now, RejectReason.IN_COOLDOWN),
    (decide (p.confidence < effectiveMinConfidence p.marketRegime cb.level),
      RejectReason.LOW_CONFIDENCE),
    (decide (maxOpenPositions ≤ snap.openPositions.length),
      RejectReason.MAX_POSITIONS_REACHED),
    (decide (maxPositionsPerSymbol ≤ symbolCount snap.openPositions p.asset),
      RejectReason.SYMBOL_LIMIT_REACHED),
    (decide (maxPortfolioRisk * snap.equity <
        totalExposure snap.openPositions + proposedNotional p snap cb dayFraction),
      RejectReason.PORTFOLIO_RISK_EXCEEDED) ]

/-- Modelled from the spec: the reason code of the first failing rule, if
any rule fails. -/
def firstFailingReason (p : DecisionProposal) (snap : PortfolioSnapshot)
    (cb : CircuitBreakerState) (now dayFraction : ℚ) : Option RejectReason :=
  ((ruleChecks p snap cb now dayFraction).find? (fun rc => rc.1)).map (fun rc => rc.2)

/-- Claim C5: the Decision Validator is deterministic (identical inputs
give identical results) and, for LONG and SHORT proposals, a rejection
carries exactly the reason code of the first failing rule in the fixed
order: terminal level check, cooldown, confidence floor, max open
positions, per-symbol limit, portfolio risk. -/
theorem validator_deterministic_first_failing_rule :
    (∀ (p : DecisionProposal) (snap : PortfolioSnapshot) (cb : CircuitBreakerState)
        (now dayFraction entryPrice : ℚ),
      validate p snap cb now dayFraction entryPrice =
        validate p snap cb now dayFraction entryPrice) ∧
    (∀ (p : DecisionProposal) (snap : PortfolioSnapshot) (cb : CircuitBreakerState)
        (now dayFraction entryPrice : ℚ) (r : RejectReason),
      (p.action = TradeAction.LONG ∨ p.action = TradeAction.SHORT) →
      (validate p snap cb now dayFraction entryPrice = ValidationResult.Rejected r ↔
        firstFailingReason p snap cb now dayFraction = some r)) := by
  constructor
  · intro p snap cb now dayFraction entryPrice
    rfl
  · intro p snap cb now dayFraction entryPrice r haction
    have hpipe : validate p snap cb now dayFraction entryPrice =
        entryPipeline p snap cb now dayFraction entryPrice := by
      rcases haction with h | h <;> simp [validate, h]
    rw [hpipe]
    unfold entryPipeline firstFailingReason ruleChecks
    split_ifs with h1 h2 h3 h4 h5 h6
    · rw [List.find?_cons_of_pos _ (by simpa using h1)]
      simp
    · rw [List.find?_cons_of_neg _ (by simpa using h1),
        List.find?_cons_of_pos _ (by simpa using h2)]
      simp
    · rw [List.find?_cons_of_neg _ (by simpa using h1),
        List.find?_cons_of_neg _ (by simpa using h2),
        List.find?_cons_of_pos _ (by simpa using h3)]
      simp
    · rw [List.find?_cons_of_neg _ (by simpa using h1),
        List.find?_cons_of_neg _ (by simpa using h2),
        List.find?_cons_of_neg _ (by simpa using h3),
        List.find?_cons_of_pos _ (by simpa using h4)]
      simp
    · rw [List.find?_cons_of_neg _ (by simpa using h1),
        List.find?_cons_of_neg _ (by simpa using h2),
        List.find?_cons_of_neg _ (by simpa using h3),
        List.find?_cons_of_neg _ (by simpa using h4),
        List.find?_cons_of_pos _ (by simpa using h5)]
      simp
    · rw [List.find?_cons_of_neg _ (by simpa using h1),
        List.find?_cons_of_neg _ (by simpa using h2),
        List.find?_cons_of_neg _ (by simpa using h3),
        List.find?_cons_of_neg _ (by simpa using h4),
        List.find?_cons_of_neg _ (by simpa using h5),
        List.find?_cons_of_pos _ (by simpa using h6)]
      simp
    · rw [List.find?_cons_of_neg _ (by simpa using h1),
        List.find?_cons_of_neg _ (by simpa using h2),
        List.find?_cons_of_neg _ (by simpa using h3),
        List.find?_cons_of_neg _ (by simpa using h4),
        List.find?_cons_of_neg _ (by simpa using h5),
        List.find?_cons_of_neg _ (by simpa using h6)]
      simp

/-- Claim C5 witness: a LONG proposal against a terminal circuit breaker
is rejected with the terminal reason, which is exactly the first failing
rule of the ordered pipeline. -/
theorem validator_deterministic_first_failing_rule_witness :
    validate ⟨"BTCUSDT", TradeAction.LONG, 90, 2, MarketRegime.TRENDING⟩
        ⟨5000, 10000, 5000, [], 5000⟩ ⟨4, 0, none⟩ 0 0 0 =
      ValidationResult.Rejected RejectReason.CIRCUIT_BREAKER_TERMINAL ∧
    firstFailingReason ⟨"BTCUSDT", TradeAction.LONG, 90, 2, MarketRegime.TRENDING⟩
        ⟨5000, 10000, 5000, [], 5000⟩ ⟨4, 0, none⟩ 0 0 =
      some RejectReason.CIRCUIT_BREAKER_TERMINAL := by
  have h := validator_deterministic_first_failing_rule.2
    ⟨"BTCUSDT", TradeAction.LONG, 90, 2, MarketRegime.TRENDING⟩
    ⟨5000, 10000, 5000, [], 5000⟩ ⟨4, 0, none⟩ 0 0 0
    RejectReason.CIRCUIT_BREAKER_TERMINAL (Or.inl rfl)
  have hff : firstFailingReason
      ⟨"BTCUSDT", TradeAction.LONG, 90, 2, MarketRegime.TRENDING⟩
      ⟨5000, 10000, 5000, [], 5000⟩ ⟨4, 0, none⟩ 0 0 =
      some RejectReason.CIRCUIT_BREAKER_TERMINAL := by decide
  exact ⟨h.mpr hff, hff⟩

/-- Modelled from the spec: the validator viewed as a state transformer
over the portfolio snapshot; acceptance only returns an order
specification and never mutates the snapshot (the caller applies fills
later), so the snapshot component is returned unchanged. -/
def validateWithState (p : DecisionProposal) (snap : PortfolioSnapshot)
    (cb : CircuitBreakerState) (now dayFraction entryPrice : ℚ) :
    ValidationResult × PortfolioSnapshot :=
  (validate p snap cb now dayFraction entryPrice, snap)

/-- Claim C8: for every accepted proposal the validator leaves the
portfolio snapshot unchanged, and validating the same proposal against
the resulting state again yields the identical result with no further
effect (idempotent, safely retryable). -/
theorem validator_acceptance_frame_and_idempotent
    (p : DecisionProposal) (snap : PortfolioSnapshot) (cb : CircuitBreakerState)
    (now dayFraction entryPrice n l sl : ℚ)
    (hAcc : validate p snap cb now dayFraction entryPrice =
      ValidationResult.Accepted n l sl) :
    (validateWithState p snap cb now dayFraction entryPrice).2 = snap ∧
    validateWithState p (validateWithState p snap cb now dayFraction entryPrice).2
        cb now dayFraction entryPrice =
      validateWithState p snap cb now dayFraction entryPrice := by
  exact ⟨rfl, rfl⟩

/-- Claim C8 witness: a concrete accepted LONG proposal (confidence 85,
trending regime, no open positions, circuit breaker level 0) leaves the
snapshot unchanged and revalidates to the same result. -/
theorem validator_acceptance_frame_and_idempotent_witness :
    (validateWithState ⟨"BTCUSDT", TradeAction.LONG, 85, 2, MarketRegime.TRENDING⟩
        ⟨10000, 10000, 10000, [], 10000⟩ ⟨0, 0, none⟩ 0 (1/2) 50000).2 =
      ⟨10000, 10000, 10000, [], 10000⟩ ∧
    validateWithState ⟨"BTCUSDT", TradeAction.LONG, 85, 2, MarketRegime.TRENDING⟩
        (validateWithState ⟨"BTCUSDT", TradeAction.LONG, 85, 2, MarketRegime.TRENDING⟩
          ⟨10000, 10000, 10000, [], 10000⟩ ⟨0, 0, none⟩ 0 (1/2) 50000).2
        ⟨0, 0, none⟩ 0 (1/2) 50000 =
      validateWithState ⟨"BTCUSDT", TradeAction.LONG, 85, 2, MarketRegime.TRENDING⟩
        ⟨10000, 10000, 10000, [], 10000⟩ ⟨0, 0, none⟩ 0 (1/2) 50000 := by
  have hAcc : validate ⟨"BTCUSDT", TradeAction.LONG, 85, 2, MarketRegime.TRENDING⟩
      ⟨10000, 10000, 10000, [], 10000⟩ ⟨0, 0, none⟩ 0 (1/2) 50000 =
      ValidationResult.Accepted 1125 3 49000 := by
    norm_num [validate, entryPipeline, cooldownActive, effectiveMinConfidence,
      minConfidence, minConfidenceVolatile, cbConfidenceFloor, symbolCount,
      totalExposure, posNotional, proposedNotional, positionSize, drawdownPercent,
      baseSize, confidenceMultiplier, regimeMultiplier, timeMultiplier,
      drawdownMultiplier, levelMaxSize, absoluteCeiling, maxOpenPositions,
      maxPositionsPerSymbol, maxPortfolioRisk, chooseLeverage, leverageThreshold,
      highConfidenceLeverage, levelLeverageCap, globalMaxLeverage,
      stopLossPriceFor, stopLossPct, min_def]
    intro h
    rw [if_neg (fun hh => MarketRegime.noConfusion hh)] at h
    norm_num at h
  exact validator_acceptance_frame_and_idempotent
    ⟨"BTCUSDT", TradeAction.LONG, 85, 2, MarketRegime.TRENDING⟩
    ⟨10000, 10000, 10000, [], 10000⟩ ⟨0, 0, none⟩ 0 (1/2) 50000 1125 3 49000 hAcc

/- ## Performance Evaluator (spec section 4.4) -/

/-- Modelled from the spec: one immutable entry of the append-only trade
history; only the realized profit and loss matters for the statistics. -/
structure TradeRecord where
  pnl : ℚ
deriving DecidableEq, Repr

/-- Modelled from the spec: number of trades in the history. -/
def totalTrades (h : List TradeRecord) : ℕ := h.length

/-- Modelled from the spec: number of winning trades. -/
def winningTrades (h : List TradeRecord) : ℕ :=
  (h.filter (fun t => decide (0 < t.pnl))).length

/-- Modelled from the spec: win rate, 0 when there are no trades, never a
division fault. -/
def winRate (h : List TradeRecord) : ℚ :=
  if totalTrades h = 0 then 0 else (winningTrades h : ℚ) / (totalTrades h : ℚ)

/-- Modelled from the spec: gross profit over the winning trades. -/
def grossProfit (h : List TradeRecord) : ℚ :=
  ((h.filter (fun t => decide (0 < t.pnl))).map TradeRecord.pnl).sum

/-- Modelled from the spec: gross loss (absolute value) over the losing
trades. -/
def grossLoss (h : List TradeRecord) : ℚ :=
  -((h.filter (fun t => decide (t.pnl < 0))).map TradeRecord.pnl).sum

/-- Modelled from the spec: profit factor result; a dedicated sentinel
constructor stands for the undefined or infinite case. -/
inductive ProfitFactor where
  | undefinedInfinite
  | value (q : ℚ)
deriving DecidableEq, Repr

/-- Modelled from the spec: profit factor, the sentinel when the gross
loss is 0 while the gross profit is positive, 0 when both are 0, and the
quotient otherwise. -/
def profitFactor (h : List TradeRecord) : ProfitFactor :=
  if grossLoss h = 0 then
    (if 0 < grossProfit h then ProfitFactor.undefinedInfinite else ProfitFactor.value 0)
  else ProfitFactor.value (grossProfit h / grossLoss h)

/-- Modelled from the spec: mean of a list of period returns. -/
def meanReturn (rs : List ℚ) : ℚ := rs.sum / (rs.length : ℚ)

/-- Modelled from the spec: sample variance of the period returns. -/
def returnVariance (rs : List ℚ) : ℚ :=
  ((rs.map (fun r => (r - meanReturn rs) ^ 2)).sum) / ((rs.length : ℚ) - 1)

/-- Modelled from the spec: annualized Sharpe ratio,
mean / stdDev times the square root of the periods per year; 0 whenever
fewer than 2 return samples exist, so the standard deviation is never
zero or undefined at the point of division. -/
noncomputable def sharpe (rs : List ℚ) (periodsPerYear : ℕ) : ℝ :=
  if rs.length < 2 then 0
  else ((meanReturn rs : ℝ) / Real.sqrt (returnVariance rs)) *
    Real.sqrt (periodsPerYear : ℝ)

/-- Claim C6: the Performance Evaluator never divides by zero on
degenerate history: the win rate is winning over total trades and 0 with
no trades; the profit factor is gross profit over gross loss, the
undefined-infinite sentinel when the loss is 0 and the profit positive, 0
when both are 0; the Sharpe ratio is 0 with fewer than 2 return
samples. -/
theorem performance_degenerate_history_safe :
    (∀ h : List TradeRecord, totalTrades h = 0 → winRate h = 0) ∧
    (∀ h : List TradeRecord, totalTrades h ≠ 0 →
      winRate h = (winningTrades h : ℚ) / (totalTrades h : ℚ)) ∧
    (∀ h : List TradeRecord, grossLoss h = 0 → 0 < grossProfit h →
      profitFactor h = ProfitFactor.undefinedInfinite) ∧
    (∀ h : List TradeRecord, grossLoss h = 0 → grossProfit h = 0 →
      profitFactor h = ProfitFactor.value 0) ∧
    (∀ h : List TradeRecord, grossLoss h ≠ 0 →
      profitFactor h = ProfitFactor.value (grossProfit h / grossLoss h)) ∧
    (∀ (rs : List ℚ) (p : ℕ), rs.length < 2 → sharpe rs p = 0) := by
  refine ⟨?_, ?_, ?_, ?_, ?_, ?_⟩
  · intro h h0
    unfold winRate
    rw [if_pos h0]
  · intro h h0
    unfold winRate
    rw [if_neg h0]
  · intro h hl hp
    unfold profitFactor
    rw [if_pos hl, if_pos hp]
  · intro h hl hp
    unfold profitFactor
    rw [if_pos hl, if_neg (by rw [hp]; exact lt_irrefl 0)]
  · intro h hl
    unfold profitFactor
    rw [if_neg hl]
  · intro rs p hlen
    unfold sharpe
    rw [if_pos hlen]

/-- Claim C6 witness: the empty history has win rate 0 and profit factor
0, a single winning trade with no losers yields the sentinel, and the
Sharpe ratio of a single return sample is 0. -/
theorem performance_degenerate_history_safe_witness :
    winRate [] = 0 ∧
    profitFactor [] = ProfitFactor.value 0 ∧
    profitFactor [⟨5⟩] = ProfitFactor.undefinedInfinite ∧
    winRate [⟨5⟩] = (1 : ℚ) / 1 ∧
    sharpe [3] 252 = 0 := by
  refine ⟨performance_degenerate_history_safe.1 [] rfl, ?_, ?_, ?_, ?_⟩
  · refine performance_degenerate_history_safe.2.2.2.1 [] ?_ ?_ <;>
      simp [grossLoss, grossProfit]
  · refine performance_degenerate_history_safe.2.2.1 [⟨5⟩] ?_ ?_ <;>
      norm_num [grossLoss, grossProfit]
  · have h := performance_degenerate_history_safe.2.1 [⟨5⟩] (by norm_num [totalTrades])
    simpa [winningTrades, totalTrades] using h
  · exact performance_degenerate_history_safe.2.2.2.2.2 [3] 252 (by norm_num)

/- ## Portfolio State Tracker (spec section 3 and 7) -/

/-- Modelled from the spec: the tracker applies a new equity reading by
moving equity and raising the peak to the maximum of the old peak and the
new equity, so the peak only ever moves upward. -/
def applyEquityUpdate (s : PortfolioSnapshot) (newEquity : ℚ) : PortfolioSnapshot :=
  { s with equity := newEquity, peakEquity := max s.peakEquity newEquity }

/-- Modelled from the spec: snapshots presented by callers are checked;
a snapshot with peakEquity below equity is a fatal state-invariant
violation surfaced as an error, and a valid snapshot passes through
unchanged (never silently corrected). -/
def checkSnapshotInvariant (s : PortfolioSnapshot) : Except String PortfolioSnapshot :=
  if s.equity ≤ s.peakEquity then Except.ok s
  else Except.error "state invariant violation: peakEquity < equity"

/-- Claim C7: a tracker update always restores peakEquity at or above
equity, peakEquity is monotonically non-decreasing across every sequence
of updates, and a snapshot presented with peakEquity < equity is surfaced
as a loud error while a valid snapshot is passed through unchanged, never
silently corrected. -/
theorem peak_equity_invariant_and_violation_loud :
    (∀ (s : PortfolioSnapshot) (e : ℚ),
      (applyEquityUpdate s e).equity ≤ (applyEquityUpdate s e).peakEquity) ∧
    (∀ (s : PortfolioSnapshot) (es : List ℚ),
      s.peakEquity ≤ (es.foldl applyEquityUpdate s).peakEquity) ∧
    (∀ s : PortfolioSnapshot, s.peakEquity < s.equity →
      checkSnapshotInvariant s =
        Except.error "state invariant violation: peakEquity < equity") ∧
    (∀ s : PortfolioSnapshot, s.equity ≤ s.peakEquity →
      checkSnapshotInvariant s = Except.ok s) := by
  refine ⟨?_, ?_, ?_, ?_⟩
  · intro s e
    exact le_max_right _ _
  · intro s es
    induction es generalizing s with
    | nil => exact le_refl _
    | cons e es ih =>
        calc s.peakEquity ≤ (applyEquityUpdate s e).peakEquity := le_max_left _ _
          _ ≤ ((e :: es).foldl applyEquityUpdate s).peakEquity := by
              rw [List.foldl_cons]
              exact ih (applyEquityUpdate s e)
  · intro s hviol
    unfold checkSnapshotInvariant
    rw [if_neg (not_le.mpr hviol)]
  · intro s hok
    unfold checkSnapshotInvariant
    rw [if_pos hok]

/-- Claim C7 witness: a concrete update sequence keeps the peak at or
above equity and non-decreasing, a corrupted snapshot (peak 9000, equity
10000) errors loudly, and a valid snapshot passes through unchanged. -/
theorem peak_equity_invariant_and_violation_loud_witness :
    (applyEquityUpdate ⟨10000, 10000, 10000, [], 10000⟩ 12000).equity ≤
      (applyEquityUpdate ⟨10000, 10000, 10000, [], 10000⟩ 12000).peakEquity ∧
    (10000 : ℚ) ≤
      (([12000, 8000] : List ℚ).foldl applyEquityUpdate
        ⟨10000, 10000, 10000, [], 10000⟩).peakEquity ∧
    checkSnapshotInvariant ⟨10000, 9000, 10000, [], 10000⟩ =
      Except.error "state invariant violation: peakEquity < equity" ∧
    checkSnapshotInvariant ⟨9000, 10000, 9000, [], 10000⟩ =
      Except.ok ⟨9000, 10000, 9000, [], 10000⟩ := by
  exact ⟨peak_equity_invariant_and_violation_loud.1 ⟨10000, 10000, 10000, [], 10000⟩ 12000,
    peak_equity_invariant_and_violation_loud.2.1 ⟨10000, 10000, 10000, [], 10000⟩
      [12000, 8000],
    peak_equity_invariant_and_violation_loud.2.2.1 ⟨10000, 9000, 10000, [], 10000⟩
      (by norm_num),
    peak_equity_invariant_and_violation_loud.2.2.2 ⟨9000, 10000, 9000, [], 10000⟩
      (by norm_num)⟩

/- ## Dashboard API client (ui src: types/api.ts and api/client.ts) -/

/-- A JSON value as delivered to the dashboard clients.  Numbers are
modelled as rationals (JSON numerals are finite decimals). -/
inductive JsonValue where
  | null
  | bool (b : Bool)
  | num (q : ℚ)
  | str (s : String)
  | arr (items : List JsonValue)
  | obj (fields : List (String × JsonValue))

/-- Field access on a JSON object; any non-object has no fields.  (A JS
object has unique keys, so first-match lookup is exact.) -/
def getField : JsonValue → String → Option JsonValue
  | JsonValue.obj fields, k => fields.lookup k
  | _, _ => none

/-- String extraction, as zod z.string() accepts exactly strings. -/
def asString : JsonValue → Option String
  | JsonValue.str s => some s
  | _ => none

/-- Number extraction, as zod z.number() accepts exactly numbers. -/
def asNumber : JsonValue → Option ℚ
  | JsonValue.num q => some q
  | _ => none

/-- A required string field of an object. -/
def parseStrField (j : JsonValue) (k : String) : Option String :=
  (getField j k).bind asString

/-- A required numeric field of an object. -/
def parseNumField (j : JsonValue) (k : String) : Option ℚ :=
  (getField j k).bind asNumber

/-- The side enum of PositionSchema: z.enum of LONG and SHORT. -/
def sideOfString (s : String) : Option PosSide :=
  if s = "LONG" then some PosSide.LONG
  else if s = "SHORT" then some PosSide.SHORT
  else none

/-- The side field of a position record. -/
def parseSide (j : JsonValue) : Option PosSide :=
  (parseStrField j "side").bind sideOfString

/-- The typed position record inferred from PositionSchema. -/
structure DashPosition where
  symbol : String
  side : PosSide
  entry_price : ℚ
  current_price : ℚ
  quantity : ℚ
  leverage : ℚ
  pnl : ℚ
  pnl_percent : ℚ
deriving DecidableEq, Repr

/-- PositionSchema.parse on one element: symbol string, side enum, and six
numeric fields, all required. -/
def parsePosition (j : JsonValue) : Option DashPosition :=
  (parseStrField j "symbol").bind fun sym =>
  (parseSide j).bind fun sd =>
  (parseNumField j "entry_price").bind fun ep =>
  (parseNumField j "current_price").bind fun cp =>
  (parseNumField j "quantity").bind fun qty =>
  (parseNumField j "leverage").bind fun lev =>
  (parseNumField j "pnl").bind fun pn =>
  (parseNumField j "pnl_percent").bind fun pp =>
  some { symbol := sym, side := sd, entry_price := ep, current_price := cp,
         quantity := qty, leverage := lev, pnl := pn, pnl_percent := pp }

/-- z.array(PositionSchema): every element must parse. -/
def parsePositions : List JsonValue → Option (List DashPosition)
  | [] => some []
  | p :: ps =>
      (parsePosition p).bind fun x =>
      (parsePositions ps).bind fun xs =>
      some (x :: xs)

/-- The status enum of PortfolioResponseSchema. -/
inductive ApiStatus where
  | success
  | error
deriving DecidableEq, Repr

/-- The status enum accepts exactly the strings success and error. -/
def statusOfString (s : String) : Option ApiStatus :=
  if s = "success" then some ApiStatus.success
  else if s = "error" then some ApiStatus.error
  else none

/-- The status field of the response. -/
def parseStatus (j : JsonValue) : Option ApiStatus :=
  (parseStrField j "status").bind statusOfString

/-- circuit_breaker_level is z.number().nullable(): a number or null. -/
def parseCircuitBreakerLevel (d : JsonValue) : Option (Option ℚ) :=
  match getField d "circuit_breaker_level" with
  | some JsonValue.null => some none
  | some (JsonValue.num q) => some (some q)
  | _ => none

/-- The positions field must be an array whose every element parses. -/
def parsePositionsField (d : JsonValue) : Option (List DashPosition) :=
  match getField d "positions" with
  | some (JsonValue.arr ps) => parsePositions ps
  | _ => none

/-- The typed data object inferred from PortfolioResponseSchema. -/
structure PortfolioData where
  total_value : ℚ
  initial_capital : ℚ
  total_return : ℚ
  available_balance : ℚ
  unrealized_pnl : ℚ
  drawdown_percent : ℚ
  position_count : ℚ
  circuit_breaker_level : Option ℚ
  positions : List DashPosition
deriving DecidableEq, Repr

/-- The typed response inferred from PortfolioResponseSchema. -/
structure PortfolioResponse where
  status : ApiStatus
  data : PortfolioData
deriving DecidableEq, Repr

/-- The data object of PortfolioResponseSchema: seven numeric fields, the
nullable circuit breaker level, and the positions array. -/
def parsePortfolioData (d : JsonValue) : Option PortfolioData :=
  (parseNumField d "total_value").bind fun tv =>
  (parseNumField d "initial_capital").bind fun ic =>
  (parseNumField d "total_return").bind fun tr =>
  (parseNumField d "available_balance").bind fun ab =>
  (parseNumField d "unrealized_pnl").bind fun up =>
  (parseNumField d "drawdown_percent").bind fun dp =>
  (parseNumField d "position_count").bind fun pc =>
  (parseCircuitBreakerLevel d).bind fun cb =>
  (parsePositionsField d).bind fun ps =>
  some { total_value := tv, initial_capital := ic, total_return := tr,
         available_balance := ab, unrealized_pnl := up, drawdown_percent := dp,
         position_count := pc, circuit_breaker_level := cb, positions := ps }

/-- PortfolioResponseSchema.parse: the status enum and the data object. -/
def parsePortfolioResponse (j : JsonValue) : Option PortfolioResponse :=
  (parseStatus j).bind fun st =>
  ((getField j "data").bind parsePortfolioData).bind fun d =>
  some { status := st, data := d }

/-- getPortfolio from api/client.ts: it returns the parsed body when
PortfolioResponseSchema.parse succeeds and throws a validation error
otherwise, never returning a partially-typed value. -/
def getPortfolio (body : JsonValue) : Except String PortfolioResponse :=
  match parsePortfolioResponse body with
  | some v => Except.ok v
  | none => Except.error "ZodError: response does not conform to PortfolioResponseSchema"

/-- A JSON object carries the named key with a numeric value. -/
def NumField (j : JsonValue) (k : String) : Prop :=
  ∃ q, getField j k = some (JsonValue.num q)

/-- Declarative conformance of one element to PositionSchema: symbol a
string, side LONG or SHORT, and the six numeric fields present. -/
def ConformsPositionSchema (j : JsonValue) : Prop :=
  (∃ s, getField j "symbol" = some (JsonValue.str s)) ∧
  (getField j "side" = some (JsonValue.str "LONG") ∨
    getField j "side" = some (JsonValue.str "SHORT")) ∧
  NumField j "entry_price" ∧ NumField j "current_price" ∧ NumField j "quantity" ∧
  NumField j "leverage" ∧ NumField j "pnl" ∧ NumField j "pnl_percent"

/-- Declarative conformance of a body to PortfolioResponseSchema: status
in the success/error enum, a data object with all numeric portfolio
fields present, the circuit breaker level a number or null, and positions
an array of conforming records. -/
def ConformsPortfolioResponseSchema (j : JsonValue) : Prop :=
  (getField j "status" = some (JsonValue.str "success") ∨
    getField j "status" = some (JsonValue.str "error")) ∧
  ∃ d, getField j "data" = some d ∧
    NumField d "total_value" ∧ NumField d "initial_capital" ∧
    NumField d "total_return" ∧ NumField d "available_balance" ∧
    NumField d "unrealized_pnl" ∧ NumField d "drawdown_percent" ∧
    NumField d "position_count" ∧
    (getField d "circuit_breaker_level" = some JsonValue.null ∨
      NumField d "circuit_breaker_level") ∧
    ∃ ps, getField d "positions" = some (JsonValue.arr ps) ∧
      ∀ p ∈ ps, ConformsPositionSchema p

lemma optBind_isSome {α β : Type} (o : Option α) (f : α → Option β) :
    (o.bind f).isSome ↔ ∃ a, o = some a ∧ (f a).isSome := by
  cases o <;> simp

lemma exists_parseNumField (j : JsonValue) (k : String) :
    (∃ a, parseNumField j k = some a) ↔ NumField j k := by
  unfold parseNumField NumField
  cases hv : getField j k with
  | none => simp
  | some v => cases v <;> simp [asNumber]

lemma exists_parseStrField (j : JsonValue) (k : String) :
    (∃ a, parseStrField j k = some a) ↔ ∃ s, getField j k = some (JsonValue.str s) := by
  unfold parseStrField
  cases hv : getField j k with
  | none => simp
  | some v => cases v <;> simp [asString]

lemma exists_parseSide (j : JsonValue) :
    (∃ a, parseSide j = some a) ↔
      (getField j "side" = some (JsonValue.str "LONG") ∨
        getField j "side" = some (JsonValue.str "SHORT")) := by
  unfold parseSide parseStrField sideOfString
  cases hv : getField j "side" with
  | none => simp
  | some v =>
      cases v <;> simp [asString]
      rename_i s
      by_cases h1 : s = "LONG"
      · simp [h1]
      · by_cases h2 : s = "SHORT" <;> simp [h1, h2]

lemma exists_parseStatus (j : JsonValue) :
    (∃ a, parseStatus j = some a) ↔
      (getField j "status" = some (JsonValue.str "success") ∨
        getField j "status" = some (JsonValue.str "error")) := by
  unfold parseStatus parseStrField statusOfString
  cases hv : getField j "status" with
  | none => simp
  | some v =>
      cases v <;> simp [asString]
      rename_i s
      by_cases h1 : s = "success"
      · simp [h1]
      · by_cases h2 : s = "error" <;> simp [h1, h2]

lemma parsePosition_isSome (j : JsonValue) :
    (parsePosition j).isSome ↔ ConformsPositionSchema j := by
  unfold parsePosition ConformsPositionSchema
  simp only [optBind_isSome, Option.isSome_some, and_true, exists_and_right,
    exists_parseStrField, exists_parseSide, exists_parseNumField]

lemma parsePositions_isSome (ps : List JsonValue) :
    (parsePositions ps).isSome ↔ ∀ p ∈ ps, ConformsPositionSchema p := by
  induction ps with
  | nil => simp [parsePositions]
  | cons p ps ih =>
      simp only [parsePositions, optBind_isSome, Option.isSome_some, and_true,
        exists_and_right, ← Option.isSome_iff_exists, parsePosition_isSome, ih,
        List.forall_mem_cons]

lemma exists_parseCircuitBreakerLevel (d : JsonValue) :
    (∃ a, parseCircuitBreakerLevel d = some a) ↔
      (getField d "circuit_breaker_level" = some JsonValue.null ∨
        NumField d "circuit_breaker_level") := by
  unfold parseCircuitBreakerLevel NumField
  cases hv : getField d "circuit_breaker_level" with
  | none => simp
  | some v => cases v <;> simp

lemma exists_parsePositionsField (d : JsonValue) :
    (∃ a, parsePositionsField d = some a) ↔
      ∃ ps, getField d "positions" = some (JsonValue.arr ps) ∧
        ∀ p ∈ ps, ConformsPositionSchema p := by
  unfold parsePositionsField
  cases hv : getField d "positions" with
  | none => simp
  | some v =>
      cases v <;> simp
      rename_i items
      rw [← Option.isSome_iff_exists, parsePositions_isSome]

lemma exists_parsePortfolioData (d : JsonValue) :
    (∃ a, parsePortfolioData d = some a) ↔
      (NumField d "total_value" ∧ NumField d "initial_capital" ∧
        NumField d "total_return" ∧ NumField d "available_balance" ∧
        NumField d "unrealized_pnl" ∧ NumField d "drawdown_percent" ∧
        NumField d "position_count" ∧
        (getField d "circuit_breaker_level" = some JsonValue.null ∨
          NumField d "circuit_breaker_level") ∧
        ∃ ps, getField d "positions" = some (JsonValue.arr ps) ∧
          ∀ p ∈ ps, ConformsPositionSchema p) := by
  rw [← Option.isSome_iff_exists]
  unfold parsePortfolioData
  simp only [optBind_isSome, Option.isSome_some, and_true, exists_and_right,
    exists_parseNumField, exists_parseCircuitBreakerLevel, exists_parsePositionsField]

lemma parsePortfolioResponse_isSome (j : JsonValue) :
    (parsePortfolioResponse j).isSome ↔ ConformsPortfolioResponseSchema j := by
  unfold parsePortfolioResponse ConformsPortfolioResponseSchema
  simp only [optBind_isSome, Option.isSome_some, and_true, exists_and_right,
    exists_parseStatus]
  rw [and_congr_right_iff]
  intro hstatus
  rw [← Option.isSome_iff_exists, optBind_isSome]
  refine exists_congr fun dv => and_congr_right fun hdv => ?_
  rw [Option.isSome_iff_exists, exists_parsePortfolioData]

/-- Claim C9: getPortfolio returns a value exactly when the response body
conforms to PortfolioResponseSchema (status in the success/error enum,
all numeric portfolio fields present, circuit_breaker_level a number or
null, positions an array of records with symbol, LONG/SHORT side and six
numeric fields), and every nonconforming body produces a thrown
validation error, never a partially-typed value. -/
theorem getPortfolio_validates_schema (body : JsonValue) :
    ((∃ v, getPortfolio body = Except.ok v) ↔
      ConformsPortfolioResponseSchema body) ∧
    (¬ ConformsPortfolioResponseSchema body →
      ∃ msg, getPortfolio body = Except.error msg) := by
  have hiff := parsePortfolioResponse_isSome body
  constructor
  · rw [← hiff]
    unfold getPortfolio
    cases hp : parsePortfolioResponse body <;> simp [hp]
  · intro hnc
    rw [← hiff, Option.isSome_iff_exists] at hnc
    unfold getPortfolio
    cases hp : parsePortfolioResponse body with
    | none => exact ⟨_, rfl⟩
    | some v => exact absurd ⟨v, hp⟩ hnc

/-- Claim C9 witness: the body null is nonconforming and getPortfolio
throws a validation error on it. -/
theorem getPortfolio_validates_schema_witness :
    ∃ msg, getPortfolio JsonValue.null = Except.error msg := by
  refine (getPortfolio_validates_schema JsonValue.null).2 ?_
  rintro ⟨hstatus, -⟩
  rcases hstatus with h | h <;> simp [getField] at h

/- ## Dashboard circuit breaker alert (static/dashboard.js and the React
Dashboard component) -/

/-- JavaScript truthiness of a JSON value (an absent field, undefined, is
handled by the Option layer below). -/
def jsTruthy : JsonValue → Bool
  | JsonValue.null => false
  | JsonValue.bool b => b
  | JsonValue.num q => decide (q ≠ 0)
  | JsonValue.str s => decide (s ≠ "")
  | JsonValue.arr _ => true
  | JsonValue.obj _ => true

/-- Truthiness of a possibly absent field: undefined is falsy. -/
def jsTruthyOpt : Option JsonValue → Bool
  | none => false
  | some v => jsTruthy v

/-- loadPortfolio in static/dashboard.js: the alert banner display style
is flex when data.circuit_breaker_level is truthy and none otherwise. -/
def dashboardAlertDisplay (level : Option JsonValue) : String :=
  if jsTruthyOpt level then "flex" else "none"

/-- What the React Dashboard renders in place of the conditional
circuit-breaker block. -/
inductive ReactNode where
  | nothing
  | text (s : String)
  | alertBanner (level : ℚ)
deriving DecidableEq, Repr

/-- The Dashboard component renders the JSX expression `level && banner`
with level typed number-or-null by the zod schema: null evaluates to null
(React renders nothing), the number 0 is falsy so the banner is skipped
but the expression evaluates to the number 0 itself, which React renders
as a text node, and any other number renders the alert banner. -/
def renderCircuitBreakerSection : Option ℚ → ReactNode
  | none => ReactNode.nothing
  | some q => if q = 0 then ReactNode.text "0" else ReactNode.alertBanner q

/-- Whether the React alert banner element itself is rendered. -/
def reactAlertVisible (level : Option ℚ) : Bool :=
  match renderCircuitBreakerSection level with
  | ReactNode.alertBanner _ => true
  | _ => false

/-- Claim C10 counterexample: in the React dashboard a circuit breaker
reported at level 0 does not render identically to no circuit breaker at
all: level 0 leaves a stray text node 0 where the null level renders
nothing. -/
theorem react_level_zero_renders_stray_text :
    renderCircuitBreakerSection (some 0) = ReactNode.text "0" ∧
    renderCircuitBreakerSection none = ReactNode.nothing ∧
    renderCircuitBreakerSection (some 0) ≠ renderCircuitBreakerSection none := by
  refine ⟨?_, rfl, ?_⟩ <;> simp [renderCircuitBreakerSection]

/-- Claim C10 amended: both front-ends show the circuit-breaker alert
banner exactly when the circuit_breaker_level field is truthy, so the
banner is hidden whenever the level is 0 or null; in the static dashboard
a level of 0 renders identically to a null level, while the React
dashboard additionally renders a stray 0 text node when the level is 0
(the JSX and-expression evaluates to the number 0, which React renders),
so there the two responses do not render identically. -/
theorem dashboards_alert_truthy_amended :
    (∀ v : Option JsonValue, dashboardAlertDisplay v = "flex" ↔ jsTruthyOpt v = true) ∧
    (∀ v : Option JsonValue, dashboardAlertDisplay v = "none" ↔ jsTruthyOpt v = false) ∧
    (dashboardAlertDisplay (some (JsonValue.num 0)) = "none" ∧
      dashboardAlertDisplay (some JsonValue.null) = "none" ∧
      dashboardAlertDisplay (some (JsonValue.num 0)) =
        dashboardAlertDisplay (some JsonValue.null)) ∧
    (∀ q : ℚ, reactAlertVisible (some q) = true ↔ q ≠ 0) ∧
    reactAlertVisible none = false ∧
    renderCircuitBreakerSection (some 0) = ReactNode.text "0" := by
  refine ⟨?_, ?_, ⟨?_, ?_, ?_⟩, ?_, rfl, ?_⟩
  · intro v
    unfold dashboardAlertDisplay
    cases hb : jsTruthyOpt v <;> simp [hb]
  · intro v
    unfold dashboardAlertDisplay
    cases hb : jsTruthyOpt v <;> simp [hb]
  · norm_num [dashboardAlertDisplay, jsTruthyOpt, jsTruthy]
  · norm_num [dashboardAlertDisplay, jsTruthyOpt, jsTruthy]
  · norm_num [dashboardAlertDisplay, jsTruthyOpt, jsTruthy]
  · intro q
    unfold reactAlertVisible renderCircuitBreakerSection
    by_cases h : q = 0 <;> simp [h]
  · simp [renderCircuitBreakerSection]
